import Mathlib

/-!
Verification of the ragger backend exchange protocol layer
(`src/ragger/backend/interface.py` and `src/ragger/backend/ledgerwallet.py`).

Bytes are modelled as `Nat` values (meaningful when `< 256`) and byte strings
as `List Nat`.  Fallible Python code (raising exceptions) is modelled with
`Except`.  The stateful parts (the async exchange context manager and the
backend lifecycle) are modelled with explicit state passing plus event traces
recording the order of transport calls.
-/

/-- Response APDU, mirroring `ragger.utils.RAPDU`: a status word and a data
payload.  The class itself lives outside the given sources, but every use in
`ledgerwallet.py` constructs it as `RAPDU(status, data)` with an integer
status and a byte-string payload. -/
structure RAPDU where
  status : Nat
  data : List Nat
deriving DecidableEq, Repr

/-- Mirrors `ragger.error.ExceptionRAPDU` (the `DeviceRejected` error of the
spec): it carries exactly the status word and payload of the offending
response, as raised by `raise_policy_enforcer` in `ledgerwallet.py`. -/
structure ExceptionRAPDU where
  status : Nat
  data : List Nat
deriving DecidableEq, Repr

/-- The `RaisePolicy` enum of `interface.py`. -/
inductive RaisePolicy where
  | RAISE_NOTHING
  | RAISE_ALL_BUT_0x9000
  | RAISE_ALL
deriving DecidableEq, Repr

/-- The framing error of the codec (`FrameTooLarge` in the spec): raised when
a payload longer than 255 bytes is packed into a single APDU. -/
inductive FrameError where
  | FrameTooLarge
deriving DecidableEq, Repr

/-- Python `int.from_bytes(bs, "big")`: big-endian interpretation of a byte
string; the empty byte string yields 0. -/
def from_bytes_be (bs : List Nat) : Nat :=
  bs.foldl (fun acc b => acc * 256 + b) 0

/-- Modelled from the spec: `pack_APDU` lives in `ragger.utils`, which is not
among the given sources; only its callers (`send`, `exchange`,
`exchange_async` in `interface.py`) are.  Per spec §4.1, `encode` produces
`class_id‖instruction_id‖param1‖param2‖len(payload)‖payload` and fails with
`FrameTooLarge` if `len(payload) > 255`. -/
def pack_APDU (cla ins p1 p2 : Nat) (data : List Nat) :
    Except FrameError (List Nat) :=
  if data.length > 255 then Except.error FrameError.FrameTooLarge
  else Except.ok (cla :: ins :: p1 :: p2 :: data.length :: data)

/-- Response decoding, as written in `LedgerWalletBackend.receive` and
`LedgerWalletBackend.exchange_raw`:
`status, payload = int.from_bytes(raw[-2:], "big"), raw[:-2] or b""`.
Python's negative slices clip at the ends, exactly as `Nat` truncated
subtraction does here: for `raw` shorter than 2 bytes, `raw[-2:]` is all of
`raw` and `raw[:-2]` is empty. -/
def decode_response (raw : List Nat) : RAPDU :=
  { status := from_bytes_be (raw.drop (raw.length - 2)),
    data := raw.take (raw.length - 2) }

/-- `BackendInterface.is_raise_required` (`interface.py` lines 92-99): a pure
function of the configured policy and the decoded response. -/
def is_raise_required (policy : RaisePolicy) (rapdu : RAPDU) : Bool :=
  (policy == RaisePolicy.RAISE_ALL)
    || ((policy == RaisePolicy.RAISE_ALL_BUT_0x9000) && (rapdu.status != 0x9000))

/-- The post-processing step of the `raise_policy_enforcer` decorator in
`ledgerwallet.py` (lines 38-43): given the response produced by the wrapped
body (after `CommException` conversion, see `decode_outcome`), raise
`ExceptionRAPDU(status, data)` if the policy requires it, else return the
response. -/
def raise_policy_enforcer (policy : RaisePolicy) (rapdu : RAPDU) :
    Except ExceptionRAPDU RAPDU :=
  if is_raise_required policy rapdu then
    Except.error { status := rapdu.status, data := rapdu.data }
  else Except.ok rapdu

/-- Outcome of the underlying client call inside `receive`/`exchange_raw`:
either the device returned raw bytes, or the client library raised a
`CommException` carrying a status word and data. -/
inductive CommOutcome where
  | bytes (raw : List Nat)
  | fault (sw : Nat) (data : List Nat)
deriving DecidableEq, Repr

/-- The response seen by `raise_policy_enforcer`'s policy check: the body's
decoded result on success, or — per the `except CommException` branch (lines
35-36) — `RAPDU(error.sw, error.data)` when the client raised. -/
def decode_outcome (out : CommOutcome) : RAPDU :=
  match out with
  | CommOutcome.bytes raw => decode_response raw
  | CommOutcome.fault sw d => { status := sw, data := d }

/-- `LedgerWalletBackend.receive` (decorated by `raise_policy_enforcer`):
read raw bytes from the device (or catch a `CommException`), decode, then
apply the raise policy. -/
def receive (policy : RaisePolicy) (dev : CommOutcome) :
    Except ExceptionRAPDU RAPDU :=
  raise_policy_enforcer policy (decode_outcome dev)

/-- `LedgerWalletBackend.exchange_raw` (decorated by `raise_policy_enforcer`):
write the frame, read the raw result (or catch a `CommException`), decode,
then apply the raise policy.  After the write, its body is identical to
`receive`'s. -/
def exchange_raw (policy : RaisePolicy) (dev : CommOutcome) :
    Except ExceptionRAPDU RAPDU :=
  raise_policy_enforcer policy (decode_outcome dev)

/-- Errors escaping `BackendInterface.exchange`: a framing error from
`pack_APDU`, or an `ExceptionRAPDU` from the policy enforcer. -/
inductive ExchangeError where
  | frame (e : FrameError)
  | rapdu (e : ExceptionRAPDU)
deriving DecidableEq, Repr

/-- `BackendInterface.exchange` (`interface.py` lines 154-178):
`exchange_raw(pack_APDU(cla, ins, p1, p2, data))`.  The transport is the
function mapping the written frame to the raw exchange outcome. -/
def exchange (policy : RaisePolicy) (transport : List Nat → CommOutcome)
    (cla ins p1 p2 : Nat) (data : List Nat) : Except ExchangeError RAPDU :=
  match pack_APDU cla ins p1 p2 data with
  | Except.error e => Except.error (ExchangeError.frame e)
  | Except.ok frame =>
    match exchange_raw policy (transport frame) with
    | Except.ok r => Except.ok r
    | Except.error e => Except.error (ExchangeError.rapdu e)

/-- Big-endian 2-byte encoding of a 16-bit status word. -/
def sw_to_bytes (sw : Nat) : List Nat := [sw / 256, sw % 256]

/-- A transport that echoes back the command payload (the bytes after the
5-byte header of the encoded frame) followed by the big-endian status word. -/
def echo_transport (sw : Nat) (frame : List Nat) : CommOutcome :=
  CommOutcome.bytes (frame.drop 5 ++ sw_to_bytes sw)

/-- Events recording the order of transport calls during an async exchange:
the raw send, the execution of the caller's scoped block, and the receive. -/
inductive AsyncEvent where
  | sendEv (data : List Nat)
  | blockEv
  | receiveEv
deriving DecidableEq, Repr

/-- Whether the caller's scoped block exits normally or raises. -/
inductive BlockOutcome where
  | normal
  | raised
deriving DecidableEq, Repr

/-- Overall outcome of an async exchange: completed, aborted by the caller's
block raising, or `ExceptionRAPDU` raised by the policy-enforced receive. -/
inductive AsyncResult where
  | completed
  | blockRaised
  | deviceRejected (e : ExceptionRAPDU)
deriving DecidableEq, Repr

/-- `LedgerWalletBackend.exchange_async_raw` (lines 99-103):
`send_raw(data); yield; self._last_async_response = self.receive()`.
`block` is the behaviour of the caller's scoped block, `dev` the device's
behaviour at the receive, `last` the `_last_async_response` slot before the
call.  Returns the event trace, the slot after the call, and the outcome.
If the block raises, the exception propagates out of the generator at the
`yield`, so the receive never runs and the slot is unchanged; if `receive`
raises `ExceptionRAPDU`, the assignment never happens either. -/
def exchange_async_raw (policy : RaisePolicy) (data : List Nat)
    (block : BlockOutcome) (dev : CommOutcome) (last : Option RAPDU) :
    List AsyncEvent × Option RAPDU × AsyncResult :=
  match block with
  | BlockOutcome.raised =>
    ([AsyncEvent.sendEv data, AsyncEvent.blockEv], last, AsyncResult.blockRaised)
  | BlockOutcome.normal =>
    match receive policy dev with
    | Except.ok r =>
      ([AsyncEvent.sendEv data, AsyncEvent.blockEv, AsyncEvent.receiveEv],
        some r, AsyncResult.completed)
    | Except.error e =>
      ([AsyncEvent.sendEv data, AsyncEvent.blockEv, AsyncEvent.receiveEv],
        last, AsyncResult.deviceRejected e)

/-- `BackendInterface.exchange_async` (`interface.py` lines 200-236):
`with exchange_async_raw(pack_APDU(cla, ins, p1, p2, data)): yield`. -/
def exchange_async (policy : RaisePolicy) (cla ins p1 p2 : Nat)
    (data : List Nat) (block : BlockOutcome) (dev : CommOutcome)
    (last : Option RAPDU) :
    Except FrameError (List AsyncEvent × Option RAPDU × AsyncResult) :=
  match pack_APDU cla ins p1 p2 data with
  | Except.error e => Except.error e
  | Except.ok frame => Except.ok (exchange_async_raw policy frame block dev last)

/-- `BackendInterface.send` (`interface.py` lines 101-119):
`send_raw(pack_APDU(cla, ins, p1, p2, data))`.  On success it returns the
trace of the raw send; encoding failures happen before any transport call. -/
def send (cla ins p1 p2 : Nat) (data : List Nat) :
    Except FrameError (List AsyncEvent) :=
  match pack_APDU cla ins p1 p2 data with
  | Except.error e => Except.error e
  | Except.ok frame => Except.ok [AsyncEvent.sendEv frame]

/-- State of a `LedgerWalletBackend` instance: the transport handle
(`_client`, abstracted to an identifier), the `_last_async_response` slot,
the mutable `raise_policy`, and the log sink reference (`log_apdu_file`,
abstracted to an identifier) set at construction in `interface.py`. -/
structure LWBackend where
  client : Option Nat
  last_async_response : Option RAPDU
  raise_policy : RaisePolicy
  log_apdu_file : Option Nat
deriving DecidableEq, Repr

/-- Lifecycle events during open/close: closing the client, an acquisition
attempt (`LedgerClient()`), and the `sleep(1)` between the two attempts. -/
inductive LifeEvent where
  | closeEv
  | acquireAttempt (i : Nat)
  | sleepEv
deriving DecidableEq, Repr

/-- `LedgerWalletBackend.__enter__` (lines 54-63): try `LedgerClient()`;
on any exception, `sleep(1)` and try `LedgerClient()` once more, this time
outside any `try`, so a second failure propagates.  `acquire i` is the
outcome of the `i`-th construction attempt (`Except.error e` models the
exception raised, carrying an identity `e` so failures are distinguishable). -/
def lw_enter (st : LWBackend) (acquire : Nat → Except Nat Nat) :
    Except Nat LWBackend × List LifeEvent :=
  match acquire 0 with
  | Except.ok c =>
    (Except.ok { st with client := some c }, [LifeEvent.acquireAttempt 0])
  | Except.error _ =>
    match acquire 1 with
    | Except.ok c =>
      (Except.ok { st with client := some c },
        [LifeEvent.acquireAttempt 0, LifeEvent.sleepEv, LifeEvent.acquireAttempt 1])
    | Except.error e =>
      (Except.error e,
        [LifeEvent.acquireAttempt 0, LifeEvent.sleepEv, LifeEvent.acquireAttempt 1])

/-- `LedgerWalletBackend.__exit__` (lines 65-67): `self._client.close()`.
The handle is released; modelled as clearing the `client` field. -/
def lw_exit (st : LWBackend) : LWBackend × List LifeEvent :=
  ({ st with client := none }, [LifeEvent.closeEv])

/-- `LedgerWalletBackend.handle_usb_reset` (lines 69-72): `__exit__()`
immediately followed by `__enter__()` on the same instance. -/
def handle_usb_reset (st : LWBackend) (acquire : Nat → Except Nat Nat) :
    Except Nat LWBackend × List LifeEvent :=
  let closed := lw_exit st
  let opened := lw_enter closed.1 acquire
  (opened.1, closed.2 ++ opened.2)

/-- `ragger.utils.Crop` as used by `compare_screen_with_snapshot`: opaque
crop options, never inspected by this backend. -/
structure Crop where
  upper : Nat
  lower : Nat
  left : Nat
  right : Nat
deriving DecidableEq, Repr

/-- `LedgerWalletBackend.compare_screen_with_snapshot` (lines 114-119):
`return True`, for every argument, touching no state. -/
def compare_screen_with_snapshot (st : LWBackend) (golden_snap_path : List Nat)
    (crop : Option Crop) (tmp_snap_path : Option (List Nat))
    (golden_run : Bool) : LWBackend × Bool :=
  (st, true)

/-- `LedgerWalletBackend.compare_screen_with_text` (lines 127-128):
`return True` for every text. -/
def compare_screen_with_text (st : LWBackend) (text : String) :
    LWBackend × Bool :=
  (st, true)

/-- `LedgerWalletBackend.get_current_screen_content` (lines 130-131):
`return []`. -/
def get_current_screen_content (st : LWBackend) : LWBackend × List Nat :=
  (st, [])

/-- `LedgerWalletBackend.right_click` (lines 105-106): `pass`. -/
def right_click (st : LWBackend) : LWBackend × Unit := (st, ())

/-- `LedgerWalletBackend.left_click` (lines 108-109): `pass`. -/
def left_click (st : LWBackend) : LWBackend × Unit := (st, ())

/-- `LedgerWalletBackend.both_click` (lines 111-112): `pass`. -/
def both_click (st : LWBackend) : LWBackend × Unit := (st, ())

/-- `LedgerWalletBackend.finger_touch` (lines 121-122): `pass` for every
coordinate and delay (the delay argument is never used). -/
def finger_touch (st : LWBackend) (x y delay : Nat) : LWBackend × Unit :=
  (st, ())

theorem from_bytes_be_pair (a b : Nat) : from_bytes_be [a, b] = a * 256 + b := by
  simp [from_bytes_be]

theorem decode_response_append (l : List Nat) (a b : Nat) :
    decode_response (l ++ [a, b]) = ⟨a * 256 + b, l⟩ := by
  have hlen : (l ++ [a, b]).length - 2 = l.length := by simp
  simp only [decode_response, hlen, List.drop_left, List.take_left,
    from_bytes_be_pair]

/-- C2: `should_raise(RaiseNothing, sw)` is false for every status word,
`should_raise(RaiseAllButSuccess, sw)` is true iff `sw ≠ 0x9000`, and
`should_raise(RaiseAll, sw)` is true for every status word.
`is_raise_required` is a pure function of the policy and the response, so it
has no effect on backend state. -/
theorem raise_policy_laws (r : RAPDU) :
    is_raise_required RaisePolicy.RAISE_NOTHING r = false
    ∧ (is_raise_required RaisePolicy.RAISE_ALL_BUT_0x9000 r = true ↔ r.status ≠ 0x9000)
    ∧ is_raise_required RaisePolicy.RAISE_ALL r = true := by
  refine ⟨rfl, ?_, rfl⟩
  simp [is_raise_required]

/-- C3: `receive` and `exchange_raw` (decorated by `raise_policy_enforcer`)
raise `ExceptionRAPDU` carrying exactly the decoded status word and payload
iff the active policy mandates raising for that status word, and otherwise
return the decoded response unchanged; `exchange` behaves the same on the
response produced by the transport for the encoded frame. -/
theorem exchange_raises_iff_policy (p : RaisePolicy) (out : CommOutcome) :
    (receive p out
        = Except.error ⟨(decode_outcome out).status, (decode_outcome out).data⟩
      ↔ is_raise_required p (decode_outcome out) = true)
    ∧ (receive p out = Except.ok (decode_outcome out)
      ↔ is_raise_required p (decode_outcome out) = false)
    ∧ exchange_raw p out = receive p out
    ∧ (∀ (t : List Nat → CommOutcome) (cla ins p1 p2 : Nat) (d : List Nat),
        d.length ≤ 255 →
        ((exchange p t cla ins p1 p2 d
            = Except.error (ExchangeError.rapdu
                ⟨(decode_outcome (t (cla :: ins :: p1 :: p2 :: d.length :: d))).status,
                 (decode_outcome (t (cla :: ins :: p1 :: p2 :: d.length :: d))).data⟩)
          ↔ is_raise_required p
              (decode_outcome (t (cla :: ins :: p1 :: p2 :: d.length :: d))) = true)
        ∧ (exchange p t cla ins p1 p2 d
            = Except.ok (decode_outcome (t (cla :: ins :: p1 :: p2 :: d.length :: d)))
          ↔ is_raise_required p
              (decode_outcome (t (cla :: ins :: p1 :: p2 :: d.length :: d))) = false))) := by
  have hbase : ∀ o : CommOutcome,
      (receive p o
          = Except.error ⟨(decode_outcome o).status, (decode_outcome o).data⟩
        ↔ is_raise_required p (decode_outcome o) = true)
      ∧ (receive p o = Except.ok (decode_outcome o)
        ↔ is_raise_required p (decode_outcome o) = false) := by
    intro o
    unfold receive raise_policy_enforcer
    by_cases h : is_raise_required p (decode_outcome o) <;> simp [h]
  refine ⟨(hbase out).1, (hbase out).2, rfl, ?_⟩
  intro t cla ins p1 p2 d hd
  have hpack : pack_APDU cla ins p1 p2 d
      = Except.ok (cla :: ins :: p1 :: p2 :: d.length :: d) := by
    simp [pack_APDU, Nat.not_lt.mpr hd]
  unfold exchange
  rw [hpack]
  unfold exchange_raw raise_policy_enforcer
  by_cases h : is_raise_required p
      (decode_outcome (t (cla :: ins :: p1 :: p2 :: d.length :: d))) <;>
    simp [h]

/-- C3 witness: with the default policy, a fault status `0x6F00` is raised as
`ExceptionRAPDU(0x6F00, [])`, and under `RAISE_NOTHING` the same response is
returned as data. -/
theorem exchange_raises_iff_policy_witness :
    receive RaisePolicy.RAISE_ALL_BUT_0x9000 (CommOutcome.bytes [0x6F, 0x00])
      = Except.error ⟨0x6F00, []⟩
    ∧ exchange RaisePolicy.RAISE_NOTHING (fun _ => CommOutcome.bytes [0x6F, 0x00])
        0xE0 1 0 0 [] = Except.ok ⟨0x6F00, []⟩ := by
  constructor
  · exact (exchange_raises_iff_policy RaisePolicy.RAISE_ALL_BUT_0x9000
      (CommOutcome.bytes [0x6F, 0x00])).1.mpr (by decide)
  · exact ((exchange_raises_iff_policy RaisePolicy.RAISE_NOTHING
      (CommOutcome.bytes [0x6F, 0x00])).2.2.2
        (fun _ => CommOutcome.bytes [0x6F, 0x00]) 0xE0 1 0 0 []
        (by decide)).2.mpr (by decide)

/-- C4: a `CommException` carrying a status/payload pair is converted by the
enforcer into an ordinary response frame `RAPDU(sw, data)` and then
classified only by the raise policy — the result of `receive`/`exchange_raw`
on a fault equals the enforcer applied to that response frame, so the fault
never escapes as a distinct error type. -/
theorem comm_fault_becomes_response (p : RaisePolicy) (sw : Nat) (d : List Nat) :
    receive p (CommOutcome.fault sw d) = raise_policy_enforcer p ⟨sw, d⟩
    ∧ exchange_raw p (CommOutcome.fault sw d) = raise_policy_enforcer p ⟨sw, d⟩
    ∧ receive p (CommOutcome.fault sw d)
        = (if is_raise_required p ⟨sw, d⟩ then Except.error ⟨sw, d⟩
           else Except.ok ⟨sw, d⟩) := by
  refine ⟨rfl, rfl, ?_⟩
  unfold receive raise_policy_enforcer decode_outcome
  by_cases h : is_raise_required p ⟨sw, d⟩ <;> simp [h]

/-- C10: on the `LedgerWalletBackend`, every screen-query operation reports a
match (or empty content) without consulting the device, and every
click/touch operation returns without any effect on the backend state. -/
theorem screen_ops_are_stubs (st : LWBackend) (path : List Nat)
    (crop : Option Crop) (tmp : Option (List Nat)) (golden : Bool)
    (text : String) (x y delay : Nat) :
    compare_screen_with_snapshot st path crop tmp golden = (st, true)
    ∧ compare_screen_with_text st text = (st, true)
    ∧ get_current_screen_content st = (st, [])
    ∧ right_click st = (st, ())
    ∧ left_click st = (st, ())
    ∧ both_click st = (st, ())
    ∧ finger_touch st x y delay = (st, ()) :=
  ⟨rfl, rfl, rfl, rfl, rfl, rfl, rfl⟩

/-- C1: under `RAISE_NOTHING`, with a transport that echoes the command
payload followed by a 2-byte big-endian status word, `exchange` returns
exactly the `(status_word, payload)` pair that decoding the echoed bytes
yields. -/
theorem exchange_echo_roundtrip (cla ins p1 p2 sw : Nat) (data : List Nat)
    (hcla : cla ≤ 255) (hins : ins ≤ 255) (hp1 : p1 ≤ 255) (hp2 : p2 ≤ 255)
    (hlen : data.length ≤ 255) (hsw : sw < 65536) :
    exchange RaisePolicy.RAISE_NOTHING (echo_transport sw) cla ins p1 p2 data
      = Except.ok ⟨sw, data⟩
    ∧ decode_response (data ++ sw_to_bytes sw) = ⟨sw, data⟩ := by
  have hdec : decode_response (data ++ sw_to_bytes sw) = ⟨sw, data⟩ := by
    rw [sw_to_bytes, decode_response_append]
    have : sw / 256 * 256 + sw % 256 = sw := by
      rw [Nat.mul_comm]
      exact Nat.div_add_mod sw 256
    rw [this]
  refine ⟨?_, hdec⟩
  have hpack : pack_APDU cla ins p1 p2 data
      = Except.ok (cla :: ins :: p1 :: p2 :: data.length :: data) := by
    simp [pack_APDU, Nat.not_lt.mpr hlen]
  have hxr : exchange_raw RaisePolicy.RAISE_NOTHING
      (echo_transport sw (cla :: ins :: p1 :: p2 :: data.length :: data))
      = Except.ok ⟨sw, data⟩ := by
    show raise_policy_enforcer RaisePolicy.RAISE_NOTHING
        (decode_response (data ++ sw_to_bytes sw)) = Except.ok ⟨sw, data⟩
    rw [hdec]
    rfl
  unfold exchange
  rw [hpack]
  simp [hxr]

/-- C1 witness: the round trip at `(0xE0, 0x01, 0, 0, [0x01, 0x02])` with
status `0x9000`. -/
theorem exchange_echo_roundtrip_witness :
    exchange RaisePolicy.RAISE_NOTHING (echo_transport 0x9000) 0xE0 1 0 0 [1, 2]
      = Except.ok ⟨0x9000, [1, 2]⟩
    ∧ decode_response ([1, 2] ++ sw_to_bytes 0x9000) = ⟨0x9000, [1, 2]⟩ :=
  exchange_echo_roundtrip 0xE0 1 0 0 0x9000 [1, 2] (by decide) (by decide)
    (by decide) (by decide) (by decide) (by decide)

/-- C5 counterexample: decoding a raw response of fewer than 2 bytes does
not fail.  On the empty response, `receive` returns the ordinary pair
`(0, b"")` (Python's `int.from_bytes(b"", "big")` is 0), and on a 1-byte
response it returns that byte as the status word — no `MalformedResponse`
error exists anywhere in the code. -/
theorem short_response_not_rejected :
    receive RaisePolicy.RAISE_NOTHING (CommOutcome.bytes []) = Except.ok ⟨0, []⟩
    ∧ receive RaisePolicy.RAISE_NOTHING (CommOutcome.bytes [0x42])
        = Except.ok ⟨0x42, []⟩ := by
  constructor <;> rfl

/-- C5 amended: for every raw response of fewer than 2 bytes, decoding still
returns a pair — the status word is the big-endian value of all available
bytes (0 for the empty response) and the payload is empty. -/
theorem short_response_decoded (raw : List Nat) (h : raw.length < 2) :
    decode_response raw = ⟨from_bytes_be raw, []⟩ := by
  match raw with
  | [] => rfl
  | [a] => rfl
  | a :: b :: t =>
    simp only [List.length_cons] at h
    omega

/-- C5 amended witness: the 1-byte response `[0x42]`. -/
theorem short_response_decoded_witness :
    decode_response [0x42] = ⟨from_bytes_be [0x42], []⟩ :=
  short_response_decoded [0x42] (by decide)

/-- C6: in an async exchange, the raw send happens strictly before the
caller's scoped block runs; the receive happens only when the block exits
normally, strictly after the block, at which point (if the policy-enforced
receive returns a response) `last_async_response` is set to that response;
if the block raises, the receive is skipped and `last_async_response` is
unchanged.  `exchange_async` is `exchange_async_raw` on the encoded frame. -/
theorem async_ordering (p : RaisePolicy) (data : List Nat)
    (block : BlockOutcome) (dev : CommOutcome) (last : Option RAPDU) :
    ((exchange_async_raw p data block dev last).1)[0]?
        = some (AsyncEvent.sendEv data)
    ∧ ((exchange_async_raw p data block dev last).1)[1]? = some AsyncEvent.blockEv
    ∧ (AsyncEvent.receiveEv ∈ (exchange_async_raw p data block dev last).1
        ↔ block = BlockOutcome.normal)
    ∧ (block = BlockOutcome.normal →
        ((exchange_async_raw p data block dev last).1)[2]?
          = some AsyncEvent.receiveEv)
    ∧ (block = BlockOutcome.raised →
        (exchange_async_raw p data block dev last).1
            = [AsyncEvent.sendEv data, AsyncEvent.blockEv]
        ∧ (exchange_async_raw p data block dev last).2.1 = last
        ∧ (exchange_async_raw p data block dev last).2.2
            = AsyncResult.blockRaised)
    ∧ (∀ r, block = BlockOutcome.normal → receive p dev = Except.ok r →
        (exchange_async_raw p data block dev last).2.1 = some r)
    ∧ (∀ e, block = BlockOutcome.normal → receive p dev = Except.error e →
        (exchange_async_raw p data block dev last).2.1 = last)
    ∧ (∀ cla ins p1 p2 : Nat, ∀ d : List Nat, d.length ≤ 255 →
        exchange_async p cla ins p1 p2 d block dev last
          = Except.ok (exchange_async_raw p
              (cla :: ins :: p1 :: p2 :: d.length :: d) block dev last)) := by
  have hpack : ∀ (cla ins p1 p2 : Nat) (d : List Nat), d.length ≤ 255 →
      exchange_async p cla ins p1 p2 d block dev last
        = Except.ok (exchange_async_raw p
            (cla :: ins :: p1 :: p2 :: d.length :: d) block dev last) := by
    intro cla ins p1 p2 d hd
    unfold exchange_async
    rw [show pack_APDU cla ins p1 p2 d
        = Except.ok (cla :: ins :: p1 :: p2 :: d.length :: d) by
      simp [pack_APDU, Nat.not_lt.mpr hd]]
  cases block with
  | raised => exact ⟨rfl, rfl, by simp [exchange_async_raw], by simp,
      fun _ => ⟨rfl, rfl, rfl⟩, by simp, by simp, hpack⟩
  | normal =>
    cases hrec : receive p dev <;>
      refine ⟨?_, ?_, ?_, ?_, ?_, ?_, ?_, hpack⟩ <;>
      simp [exchange_async_raw, hrec]

/-- C6 witness: a successful async exchange sets `last_async_response`
to the received response; one whose block raises leaves it unset. -/
theorem async_ordering_witness :
    (exchange_async_raw RaisePolicy.RAISE_NOTHING [0xE0] BlockOutcome.normal
        (CommOutcome.bytes [0x90, 0x00]) none).2.1 = some ⟨0x9000, []⟩
    ∧ (exchange_async_raw RaisePolicy.RAISE_NOTHING [0xE0] BlockOutcome.raised
        (CommOutcome.bytes [0x90, 0x00]) none).2.1 = none := by
  constructor
  · exact (async_ordering RaisePolicy.RAISE_NOTHING [0xE0] BlockOutcome.normal
      (CommOutcome.bytes [0x90, 0x00]) none).2.2.2.2.2.1 ⟨0x9000, []⟩ rfl rfl
  · exact ((async_ordering RaisePolicy.RAISE_NOTHING [0xE0] BlockOutcome.raised
      (CommOutcome.bytes [0x90, 0x00]) none).2.2.2.2.1 rfl).2.1

/-- C7: if the first transport acquisition in `__enter__` fails, the backend
sleeps once and retries exactly once: an acquisition that fails once then
succeeds yields an open backend after exactly one retry delay, an
acquisition that always fails propagates the second failure (the first is
swallowed), and a first-attempt success involves no retry. -/
theorem enter_retries_once (st : LWBackend) (acquire : Nat → Except Nat Nat)
    (e0 c : Nat) :
    (acquire 0 = Except.error e0 → acquire 1 = Except.ok c →
      lw_enter st acquire
        = (Except.ok { st with client := some c },
           [LifeEvent.acquireAttempt 0, LifeEvent.sleepEv,
            LifeEvent.acquireAttempt 1]))
    ∧ (∀ e1, acquire 0 = Except.error e0 → acquire 1 = Except.error e1 →
        lw_enter st acquire
          = (Except.error e1,
             [LifeEvent.acquireAttempt 0, LifeEvent.sleepEv,
              LifeEvent.acquireAttempt 1]))
    ∧ (acquire 0 = Except.ok c →
        lw_enter st acquire
          = (Except.ok { st with client := some c },
             [LifeEvent.acquireAttempt 0])) := by
  refine ⟨fun h0 h1 => ?_, fun e1 h0 h1 => ?_, fun h0 => ?_⟩
  · simp only [lw_enter, h0, h1]
  · simp only [lw_enter, h0, h1]
  · simp only [lw_enter, h0]

/-- C7 witness: an acquisition failing once then succeeding opens the
backend after one sleep; one that always fails propagates the second
failure. -/
theorem enter_retries_once_witness :
    lw_enter ⟨none, none, RaisePolicy.RAISE_ALL_BUT_0x9000, none⟩
        (fun i => if i = 0 then Except.error 7 else Except.ok 42)
      = (Except.ok ⟨some 42, none, RaisePolicy.RAISE_ALL_BUT_0x9000, none⟩,
         [LifeEvent.acquireAttempt 0, LifeEvent.sleepEv,
          LifeEvent.acquireAttempt 1])
    ∧ lw_enter ⟨none, none, RaisePolicy.RAISE_ALL_BUT_0x9000, none⟩
        (fun i => Except.error (10 + i))
      = (Except.error 11,
         [LifeEvent.acquireAttempt 0, LifeEvent.sleepEv,
          LifeEvent.acquireAttempt 1]) := by
  constructor
  · exact (enter_retries_once ⟨none, none, RaisePolicy.RAISE_ALL_BUT_0x9000, none⟩
      (fun i => if i = 0 then Except.error 7 else Except.ok 42) 7 42).1 rfl rfl
  · exact (enter_retries_once ⟨none, none, RaisePolicy.RAISE_ALL_BUT_0x9000, none⟩
      (fun i => Except.error (10 + i)) 10 0).2.1 11 rfl rfl

/-- C8: encoding, as invoked by `send` and `exchange` before any transport
I/O, fails with `FrameTooLarge` whenever the payload exceeds 255 bytes (so
for every transport, `exchange` fails without consulting it), and succeeds
at 255 bytes or fewer, producing `cla‖ins‖p1‖p2‖len(payload)‖payload`. -/
theorem encode_length_bound (cla ins p1 p2 : Nat) (data : List Nat)
    (p : RaisePolicy) :
    (data.length > 255 →
      pack_APDU cla ins p1 p2 data = Except.error FrameError.FrameTooLarge
      ∧ send cla ins p1 p2 data = Except.error FrameError.FrameTooLarge
      ∧ ∀ transport : List Nat → CommOutcome,
          exchange p transport cla ins p1 p2 data
            = Except.error (ExchangeError.frame FrameError.FrameTooLarge))
    ∧ (data.length ≤ 255 →
        pack_APDU cla ins p1 p2 data
          = Except.ok (cla :: ins :: p1 :: p2 :: data.length :: data)
        ∧ send cla ins p1 p2 data
          = Except.ok [AsyncEvent.sendEv
              (cla :: ins :: p1 :: p2 :: data.length :: data)]) := by
  constructor
  · intro hbig
    have hpack : pack_APDU cla ins p1 p2 data
        = Except.error FrameError.FrameTooLarge := by
      simp [pack_APDU, hbig]
    refine ⟨hpack, ?_, fun transport => ?_⟩
    · unfold send
      rw [hpack]
    · unfold exchange
      rw [hpack]
  · intro hsmall
    have hpack : pack_APDU cla ins p1 p2 data
        = Except.ok (cla :: ins :: p1 :: p2 :: data.length :: data) := by
      simp [pack_APDU, Nat.not_lt.mpr hsmall]
    refine ⟨hpack, ?_⟩
    unfold send
    rw [hpack]

/-- C8 witness: a 256-byte payload is rejected with `FrameTooLarge` and a
255-byte payload is encoded as the 5-byte header followed by the payload. -/
theorem encode_length_bound_witness :
    pack_APDU 0xE0 1 0 0 (List.replicate 256 0)
      = Except.error FrameError.FrameTooLarge
    ∧ pack_APDU 0xE0 1 0 0 (List.replicate 255 0)
      = Except.ok (0xE0 :: 1 :: 0 :: 0 :: 255 :: List.replicate 255 0) := by
  constructor
  · exact ((encode_length_bound 0xE0 1 0 0 (List.replicate 256 0)
      RaisePolicy.RAISE_NOTHING).1
        (by simp only [List.length_replicate]; omega)).1
  · have h := ((encode_length_bound 0xE0 1 0 0 (List.replicate 255 0)
      RaisePolicy.RAISE_NOTHING).2
        (by simp only [List.length_replicate]; omega)).1
    simpa only [List.length_replicate] using h

/-- C9: `handle_usb_reset` performs the close immediately followed by the
reopen on the same instance — the event trace is the close followed by the
acquisition attempts — and on success the resulting state keeps the raise
policy, the log sink and the last async response unchanged; only the
transport handle is replaced by the freshly acquired one. -/
theorem reset_preserves_config (st : LWBackend)
    (acquire : Nat → Except Nat Nat) :
    (handle_usb_reset st acquire).2.head? = some LifeEvent.closeEv
    ∧ ((handle_usb_reset st acquire).2)[1]? = some (LifeEvent.acquireAttempt 0)
    ∧ (∀ st', (handle_usb_reset st acquire).1 = Except.ok st' →
        st'.raise_policy = st.raise_policy
        ∧ st'.log_apdu_file = st.log_apdu_file
        ∧ st'.last_async_response = st.last_async_response
        ∧ ∃ c, st'.client = some c
            ∧ (acquire 0 = Except.ok c ∨ acquire 1 = Except.ok c)) := by
  cases h0 : acquire 0 with
  | ok c =>
    refine ⟨?_, ?_, fun st' hok => ?_⟩
    · simp [handle_usb_reset, lw_exit, lw_enter, h0]
    · simp [handle_usb_reset, lw_exit, lw_enter, h0]
    · simp only [handle_usb_reset, lw_exit, lw_enter, h0, Except.ok.injEq] at hok
      subst hok
      exact ⟨rfl, rfl, rfl, c, rfl, Or.inl rfl⟩
  | error e =>
    cases h1 : acquire 1 with
    | ok c =>
      refine ⟨?_, ?_, fun st' hok => ?_⟩
      · simp [handle_usb_reset, lw_exit, lw_enter, h0, h1]
      · simp [handle_usb_reset, lw_exit, lw_enter, h0, h1]
      · simp only [handle_usb_reset, lw_exit, lw_enter, h0, h1,
          Except.ok.injEq] at hok
        subst hok
        exact ⟨rfl, rfl, rfl, c, rfl, Or.inr rfl⟩
    | error e1 =>
      refine ⟨?_, ?_, fun st' hok => ?_⟩
      · simp [handle_usb_reset, lw_exit, lw_enter, h0, h1]
      · simp [handle_usb_reset, lw_exit, lw_enter, h0, h1]
      · simp only [handle_usb_reset, lw_exit, lw_enter, h0, h1] at hok
        exact absurd hok (by simp)

/-- C9 witness: resetting a backend whose policy is `RAISE_ALL` and whose
log sink is `5` keeps both, replaces the handle with the new one, and the
trace starts with the close followed by the reopen. -/
theorem reset_preserves_config_witness :
    (handle_usb_reset ⟨some 1, none, RaisePolicy.RAISE_ALL, some 5⟩
        (fun _ => Except.ok 9)).2.head? = some LifeEvent.closeEv
    ∧ (⟨some 9, none, RaisePolicy.RAISE_ALL, some 5⟩ : LWBackend).raise_policy
        = (⟨some 1, none, RaisePolicy.RAISE_ALL, some 5⟩ : LWBackend).raise_policy
    ∧ (⟨some 9, none, RaisePolicy.RAISE_ALL, some 5⟩ : LWBackend).log_apdu_file
        = (⟨some 1, none, RaisePolicy.RAISE_ALL, some 5⟩ : LWBackend).log_apdu_file := by
  have h := reset_preserves_config
    ⟨some 1, none, RaisePolicy.RAISE_ALL, some 5⟩ (fun _ => Except.ok 9)
  have hc := h.2.2 ⟨some 9, none, RaisePolicy.RAISE_ALL, some 5⟩ rfl
  exact ⟨h.1, hc.1, hc.2.1⟩
